import Mathlib

/-!
Verification of the data-access abstraction in `src/data/mod.rs` of
rust-rocket-adventures. The source consists of two trait declarations:

- `Entity`, with associated type `PrimaryKey` (bounded by
  `Serialize + for<'a> Deserialize<'a> + Eq + Display`), method
  `get_pk(&self) -> Self::PrimaryKey`, and constant `PK_DEFAULT`;
- `Repository` (under `#[async_trait]`), with associated types
  `EntityType : Entity`, `ErrType : Error`, `EntityInputType : Into<EntityType>`,
  and five async operations `get_many`, `get_by_pk`, `create`, `update`,
  `delete`, none of which takes a `self` receiver.

The development embeds the source twice, at two levels:

1. a syntactic table (`repositoryMethods`) transcribing each operation's
   declared signature — whether it is `async`, whether it takes a receiver,
   its parameter and return types, and whether it carries the where-clause
   `Self::EntityType: Entity<PrimaryKey = PK>`;
2. semantic structures (`PkBounds`, `Entity`, `ErrorBound`, `Repository`)
   whose fields are the capabilities the trait bounds demand, used for
   behavioural properties (purity, totality, error shape).

The trait has no implementation in the source tree; where a property speaks
about a conforming implementation (delete-then-get semantics), a reference
model is built from the specification and clearly marked as such.
-/

namespace RocketData

/-- Types appearing in the `Repository` trait's method signatures, as written
in the source. `selfRepo` stands for a parameter of type `Self` (the
repository value itself); no such parameter occurs in any declared method,
and the constructor exists so that its absence can be stated. `pkParam` is
the generic parameter `PK` of the keyed operations. -/
inductive RustType where
  | unit
  | selfRepo
  | selfEntity
  | selfErr
  | selfInput
  | pkParam
  | vec (elem : RustType)
  | result (ok : RustType) (err : RustType)
deriving DecidableEq

/-- One method declaration of the `Repository` trait: its name, whether it is
declared `async`, whether it takes a `self`/`&self` receiver, its non-receiver
parameter types in order, its return type, and whether it carries the
where-clause `Self::EntityType: Entity<PrimaryKey = PK>` pinning the generic
key parameter to the entity's declared key type. -/
structure MethodSig where
  name : String
  isAsync : Bool
  hasReceiver : Bool
  params : List RustType
  ret : RustType
  pkConstrained : Bool
deriving DecidableEq

/-- `async fn get_many() -> Result<Vec<Self::EntityType>, Self::ErrType>`. -/
def getManySig : MethodSig :=
  { name := "get_many", isAsync := true, hasReceiver := false, params := [],
    ret := RustType.result (RustType.vec RustType.selfEntity) RustType.selfErr,
    pkConstrained := false }

/-- `async fn get_by_pk<PK>(pk: PK) -> Result<Self::EntityType, Self::ErrType>
    where Self::EntityType: Entity<PrimaryKey = PK>`. -/
def getByPkSig : MethodSig :=
  { name := "get_by_pk", isAsync := true, hasReceiver := false,
    params := [RustType.pkParam],
    ret := RustType.result RustType.selfEntity RustType.selfErr,
    pkConstrained := true }

/-- `async fn create(input: Self::EntityInputType) -> Result<Self::EntityType, Self::ErrType>`. -/
def createSig : MethodSig :=
  { name := "create", isAsync := true, hasReceiver := false,
    params := [RustType.selfInput],
    ret := RustType.result RustType.selfEntity RustType.selfErr,
    pkConstrained := false }

/-- `async fn update<PK>(pk: PK, updated_input: Self::EntityInputType) -> Result<(), Self::ErrType>
    where Self::EntityType: Entity<PrimaryKey = PK>`. -/
def updateSig : MethodSig :=
  { name := "update", isAsync := true, hasReceiver := false,
    params := [RustType.pkParam, RustType.selfInput],
    ret := RustType.result RustType.unit RustType.selfErr,
    pkConstrained := true }

/-- `async fn delete<PK>(pk: PK) -> Result<(), Self::ErrType>
    where Self::EntityType: Entity<PrimaryKey = PK>`. -/
def deleteSig : MethodSig :=
  { name := "delete", isAsync := true, hasReceiver := false,
    params := [RustType.pkParam],
    ret := RustType.result RustType.unit RustType.selfErr,
    pkConstrained := true }

/-- The five operations of the `Repository` trait, in source order. -/
def repositoryMethods : List MethodSig :=
  [getManySig, getByPkSig, createSig, updateSig, deleteSig]

/-- The bounds the `Entity` trait places on its associated type `PrimaryKey`:
`Serialize + for<'a> Deserialize<'a> + Eq + Display`. Serialization renders a
key to an external representation; deserialization may fail, hence `Option`.
Rust's `Eq` trait is documented to demand a full equivalence relation
(reflexive, symmetric, transitive) on top of `PartialEq`, so those laws are
part of the bound; the serde traits document no law connecting `Serialize`
and `Deserialize`, so no round-trip law is part of the bound. All fields are
functions of the key type alone: the bounds attach to the associated type,
not to the entity. -/
structure PkBounds (PK : Type) where
  beq : PK → PK → Bool
  display : PK → String
  serialize : PK → String
  deserialize : String → Option PK
  beq_refl : ∀ a, beq a a = true
  beq_symm : ∀ a b, beq a b = true → beq b a = true
  beq_trans : ∀ a b c, beq a b = true → beq b c = true → beq a c = true

/-- Embedding of the `Entity` trait for an entity carrier `E` with primary-key
type `PK`: the bounds on `PrimaryKey`, the accessor
`fn get_pk(&self) -> Self::PrimaryKey` — a pure total function out of a
read-only value — and the constant `const PK_DEFAULT: Self::PrimaryKey`. -/
structure Entity (E : Type) (PK : Type) where
  pkBounds : PkBounds PK
  get_pk : E → PK
  PK_DEFAULT : PK

/-- A chain of error descriptions, standing for Rust's `dyn Error`: a
human-readable message and an optional cause, itself an error. -/
inductive DynError where
  | mk (msg : String) (cause : Option DynError)

/-- The `std::error::Error` bound on `Repository::ErrType`: an error value is
describable (it renders to a human-readable message, via `Display`) and
chainable (it may name an underlying cause, via `Error::source`). -/
structure ErrorBound (Err : Type) where
  description : Err → String
  source : Err → Option DynError

/-- Embedding of the `Repository` trait for entity carrier `E`, key type `PK`,
error type `Err`, input type `In`. The associated-type bounds become fields
(`entity` for `EntityType: Entity`, `errBound` for `ErrType: Error`, `into`
for `EntityInputType: Into<EntityType>`); each operation field carries
exactly the declared non-receiver parameters and the success/error shape of
its `Result`, with the keyed operations taking the entity's own key type `PK`
as the where-clauses force. The `async` markers of the source are recorded in
`repositoryMethods`; the operation fields model each operation's eventual
result. As in the source, no operation takes the repository value as an
argument. -/
structure Repository (E PK Err In : Type) where
  entity : Entity E PK
  errBound : ErrorBound Err
  into : In → E
  get_many : Except Err (List E)
  get_by_pk : PK → Except Err E
  create : In → Except Err E
  update : PK → In → Except Err Unit
  delete : PK → Except Err Unit

/-- Modelled from the spec: the source contains only the `Repository` trait
declaration, no concrete implementation, and the trait does not itself name
error kinds. Section 7 of the specification gives the error taxonomy for a
conforming implementation; these are its kinds. -/
inductive RepoErrorKind where
  | notFound
  | validation
  | storeFault
  | serializationFault
deriving DecidableEq

/-- Modelled from the spec: a conforming implementation's `get_by_pk` over a
backing store held as an association list from primary keys to entities.
Per the spec, retrieving a key absent from the collection fails with the
not-found error kind. -/
def get_by_pk_model {PK E : Type} [DecidableEq PK]
    (store : List (PK × E)) (pk : PK) : Except RepoErrorKind E :=
  match store.find? (fun p => decide (p.1 = pk)) with
  | some p => Except.ok p.2
  | none => Except.error RepoErrorKind.notFound

/-- Modelled from the spec: a conforming implementation's `delete`. Success
signals the entity no longer exists, so every pair under the given key is
removed from the store; a key absent from the collection fails with the
not-found error kind. -/
def delete_model {PK E : Type} [DecidableEq PK]
    (store : List (PK × E)) (pk : PK) : Except RepoErrorKind (List (PK × E)) :=
  if (store.find? (fun p => decide (p.1 = pk))).isSome then
    Except.ok (store.filter (fun p => decide (p.1 ≠ pk)))
  else
    Except.error RepoErrorKind.notFound

/-- Modelled from the spec: a conforming implementation's `update`, converting
the input with the repository's `Into` conversion and replacing the entity
under the given key; a key absent from the collection fails with the
not-found error kind. -/
def update_model {PK E I : Type} [DecidableEq PK]
    (store : List (PK × E)) (pk : PK) (input : I) (conv : I → E) :
    Except RepoErrorKind (List (PK × E)) :=
  if (store.find? (fun p => decide (p.1 = pk))).isSome then
    Except.ok (store.map (fun p => if p.1 = pk then (p.1, conv input) else p))
  else
    Except.error RepoErrorKind.notFound

/-- Primary-key bounds for `Nat` keys: decidable equality, decimal rendering,
decimal serialization with the matching parse. -/
def natPkBounds : PkBounds Nat where
  beq := fun a b => decide (a = b)
  display := toString
  serialize := toString
  deserialize := fun s => s.toNat?
  beq_refl := by intro a; simp
  beq_symm := by intro a b h; simp only [decide_eq_true_eq] at h ⊢; exact h.symm
  beq_trans := by
    intro a b c hab hbc
    simp only [decide_eq_true_eq] at hab hbc ⊢
    exact hab.trans hbc

/-- An `Entity` instance over `Nat` carriers keyed by themselves, used to
evaluate the contract theorems on concrete input. -/
def natEntity : Entity Nat Nat where
  pkBounds := natPkBounds
  get_pk := id
  PK_DEFAULT := 0

/-- The `Error` capability for the modelled error kinds: a message per kind
and no underlying cause. -/
def repoErrorBound : ErrorBound RepoErrorKind where
  description := fun e =>
    match e with
    | RepoErrorKind.notFound => "not found"
    | RepoErrorKind.validation => "validation or constraint violation"
    | RepoErrorKind.storeFault => "backing store fault"
    | RepoErrorKind.serializationFault => "serialization fault"
  source := fun _ => none

/-- A concrete `Repository` value over an empty collection, used to evaluate
the contract theorems on concrete input. -/
def exampleRepo : Repository Nat Nat RepoErrorKind Nat where
  entity := natEntity
  errBound := repoErrorBound
  into := id
  get_many := Except.ok []
  get_by_pk := fun _ => Except.error RepoErrorKind.notFound
  create := fun i => Except.ok i
  update := fun _ _ => Except.error RepoErrorKind.notFound
  delete := fun _ => Except.error RepoErrorKind.notFound

/-- An `Entity` instance whose key serialization is lossy: serde's traits
permit an implementation that discards information when rendering, and
nothing in the `Entity` trait's bounds rules it out. Every bound the trait
demands (equality, rendering, serialization, deserialization) is supplied. -/
def lossyEntity : Entity Unit Nat where
  pkBounds :=
    { beq := fun a b => decide (a = b)
      display := toString
      serialize := fun _ => ""
      deserialize := fun _ => some 0
      beq_refl := by intro a; simp
      beq_symm := by intro a b h; simp only [decide_eq_true_eq] at h ⊢; exact h.symm
      beq_trans := by
        intro a b c hab hbc
        simp only [decide_eq_true_eq] at hab hbc ⊢
        exact hab.trans hbc }
  get_pk := fun _ => 0
  PK_DEFAULT := 0

/-- A type shaped like a floating-point domain: one value that, under the
IEEE-style comparison `floatLikeEq`, does not equal itself. -/
inductive FloatLike where
  | nan
  | num (n : Nat)
deriving DecidableEq

/-- IEEE-style partial equality on `FloatLike`: the `nan` value equals
nothing, itself included. This is `PartialEq`-only behaviour, exactly why
`f32` and `f64` implement `PartialEq` but not `Eq` in Rust. -/
def floatLikeEq : FloatLike → FloatLike → Bool
  | FloatLike.nan, _ => false
  | _, FloatLike.nan => false
  | FloatLike.num a, FloatLike.num b => a == b

/-- Lawful primary-key bounds over `FloatLike` built on structural equality,
used to evaluate the equivalence theorem on concrete input. -/
def floatLikeStructBounds : PkBounds FloatLike where
  beq := fun a b => decide (a = b)
  display := fun _ => ""
  serialize := fun _ => ""
  deserialize := fun _ => none
  beq_refl := by intro a; simp
  beq_symm := by intro a b h; simp only [decide_eq_true_eq] at h ⊢; exact h.symm
  beq_trans := by
    intro a b c hab hbc
    simp only [decide_eq_true_eq] at hab hbc ⊢
    exact hab.trans hbc

/-- Claim C1, counterexample: `get_many` is one of the five declared
`Repository` operations and its signature takes no `self` receiver, so it is
not the case that every operation is invoked on a repository value held by
the caller. -/
theorem get_many_lacks_receiver :
    getManySig ∈ repositoryMethods ∧ getManySig.hasReceiver = false := by
  decide

/-- Claim C1, amended: none of the five `Repository` operations takes the
repository instance as receiver or as a parameter — each signature has no
receiver and its parameter list holds only the declared key and input
parameters — so the operations are associated functions invoked on the
implementing type rather than on a held value. -/
theorem repository_ops_lack_receiver :
    getManySig.hasReceiver = false ∧
    getByPkSig.hasReceiver = false ∧
    createSig.hasReceiver = false ∧
    updateSig.hasReceiver = false ∧
    deleteSig.hasReceiver = false ∧
    getManySig.params = [] ∧
    getByPkSig.params = [RustType.pkParam] ∧
    createSig.params = [RustType.selfInput] ∧
    updateSig.params = [RustType.pkParam, RustType.selfInput] ∧
    deleteSig.params = [RustType.pkParam] := by
  decide

/-- Claim C2: each of `get_by_pk`, `update`, `delete` takes the generic key
parameter and carries the where-clause pinning that parameter to the managed
entity's declared `PrimaryKey` type, so a key of a different entity's type is
rejected at the contract boundary; in the semantic embedding the keyed
operations accept exactly the key type produced by the entity's own
`get_pk`, so applying them to any entity's key is well-typed. -/
theorem keyed_ops_require_entity_key :
    (getByPkSig.pkConstrained = true ∧ RustType.pkParam ∈ getByPkSig.params ∧
     updateSig.pkConstrained = true ∧ RustType.pkParam ∈ updateSig.params ∧
     deleteSig.pkConstrained = true ∧ RustType.pkParam ∈ deleteSig.params) ∧
    ∀ {E PK Err In : Type} (r : Repository E PK Err In) (e : E) (i : In),
      (∃ res, r.get_by_pk (r.entity.get_pk e) = res) ∧
      (∃ res, r.update (r.entity.get_pk e) i = res) ∧
      (∃ res, r.delete (r.entity.get_pk e) = res) := by
  refine ⟨by decide, ?_⟩
  intro E PK Err In r e i
  exact ⟨⟨_, rfl⟩, ⟨_, rfl⟩, ⟨_, rfl⟩⟩

/-- Claim C3: the conversion from a repository's input type into its entity
type is a total function of the embedding — every input value is sent to
some entity value, and to at most one, with no failure channel in its type. -/
theorem into_total_unique :
    ∀ {E PK Err In : Type} (r : Repository E PK Err In) (i : In),
      (∃ e, r.into i = e) ∧
      ∀ e1 e2 : E, r.into i = e1 → r.into i = e2 → e1 = e2 := by
  intro E PK Err In r i
  exact ⟨⟨_, rfl⟩, fun e1 e2 h1 h2 => h1 ▸ h2⟩

/-- Claim C3, witness: the conversion of the concrete repository evaluated at
the input 3 exists and is unique. -/
theorem into_total_unique_witness :
    (∃ e, exampleRepo.into 3 = e) ∧ exampleRepo.into 3 = exampleRepo.into 3 :=
  ⟨(into_total_unique exampleRepo 3).1,
   (into_total_unique exampleRepo 3).2 (exampleRepo.into 3) (exampleRepo.into 3) rfl rfl⟩

/-- Claim C4: every one of the five operations returns `Result<_, Self::ErrType>`
— a success value or a single error value of the repository's declared error
type, with no other failure channel in the signature — and in the semantic
embedding each operation's outcome is exactly a success or one error value,
while the `Error` bound renders every error to a human-readable message with
an optional chained cause. -/
theorem repository_ops_return_declared_result :
    ((∃ a, getManySig.ret = RustType.result a RustType.selfErr) ∧
     (∃ a, getByPkSig.ret = RustType.result a RustType.selfErr) ∧
     (∃ a, createSig.ret = RustType.result a RustType.selfErr) ∧
     (∃ a, updateSig.ret = RustType.result a RustType.selfErr) ∧
     (∃ a, deleteSig.ret = RustType.result a RustType.selfErr)) ∧
    ∀ {E PK Err In : Type} (r : Repository E PK Err In) (pk : PK) (i : In),
      ((∃ v, r.get_many = Except.ok v) ∨ (∃ e, r.get_many = Except.error e)) ∧
      ((∃ v, r.get_by_pk pk = Except.ok v) ∨ (∃ e, r.get_by_pk pk = Except.error e)) ∧
      ((∃ v, r.create i = Except.ok v) ∨ (∃ e, r.create i = Except.error e)) ∧
      ((∃ v, r.update pk i = Except.ok v) ∨ (∃ e, r.update pk i = Except.error e)) ∧
      ((∃ v, r.delete pk = Except.ok v) ∨ (∃ e, r.delete pk = Except.error e)) ∧
      ∀ err : Err, ∃ (msg : String) (c : Option DynError),
        r.errBound.description err = msg ∧ r.errBound.source err = c := by
  refine ⟨⟨⟨_, rfl⟩, ⟨_, rfl⟩, ⟨_, rfl⟩, ⟨_, rfl⟩, ⟨_, rfl⟩⟩, ?_⟩
  intro E PK Err In r pk i
  refine ⟨?_, ?_, ?_, ?_, ?_, fun err => ⟨_, _, rfl, rfl⟩⟩
  · cases h : r.get_many with
    | ok v => exact Or.inl ⟨v, rfl⟩
    | error e => exact Or.inr ⟨e, rfl⟩
  · cases h : r.get_by_pk pk with
    | ok v => exact Or.inl ⟨v, rfl⟩
    | error e => exact Or.inr ⟨e, rfl⟩
  · cases h : r.create i with
    | ok v => exact Or.inl ⟨v, rfl⟩
    | error e => exact Or.inr ⟨e, rfl⟩
  · cases h : r.update pk i with
    | ok v => exact Or.inl ⟨v, rfl⟩
    | error e => exact Or.inr ⟨e, rfl⟩
  · cases h : r.delete pk with
    | ok v => exact Or.inl ⟨v, rfl⟩
    | error e => exact Or.inr ⟨e, rfl⟩

/-- Claim C5: `get_pk` is a pure total function of the embedding — it reads
the entity value without mutating anything, every entity value yields some
primary-key value, and two calls on the same unmutated value yield equal
results. -/
theorem get_pk_pure_total :
    ∀ {E PK : Type} (ent : Entity E PK) (e : E),
      (∃ pk, ent.get_pk e = pk) ∧ ent.get_pk e = ent.get_pk e := by
  intro E PK ent e
  exact ⟨⟨_, rfl⟩, rfl⟩

/-- Claim C6, counterexample: `lossyEntity` satisfies every bound the `Entity`
trait places on its key type, yet serializing the key 1 and deserializing the
result yields the key 0 — a key the contract's own equality test
distinguishes from 1 — so round-trip recovery of the original key is not
guaranteed by the contract. -/
theorem pk_roundtrip_not_guaranteed :
    lossyEntity.pkBounds.deserialize (lossyEntity.pkBounds.serialize 1) = some 0 ∧
    lossyEntity.pkBounds.beq 1 0 = false := by
  decide

/-- Claim C6, amended: the primary-key type of every `Entity` supports
equality testing, human-readable textual rendering, serialization to an
external representation and deserialization from one — all as bounds on the
associated key type, functions of the key alone — but the bounds do not
themselves guarantee that deserializing a serialized key yields the original
key. -/
theorem pk_bounds_capabilities :
    ∀ {E PK : Type} (ent : Entity E PK) (k : PK),
      ent.pkBounds.beq k k = true ∧
      (∃ t : String, ent.pkBounds.display k = t) ∧
      (∃ s : String, ent.pkBounds.serialize k = s) ∧
      (∃ d : Option PK, ent.pkBounds.deserialize (ent.pkBounds.serialize k) = d) := by
  intro E PK ent k
  exact ⟨ent.pkBounds.beq_refl k, ⟨_, rfl⟩, ⟨_, rfl⟩, ⟨_, rfl⟩⟩

/-- Claim C7: `PK_DEFAULT` is a constant of the primary-key type — its type
is inhabited as soon as the `Entity` contract is, with no entity value
needed, every access yields the same value, and it does not vary with the
entity instance at hand. -/
theorem pk_default_stable :
    ∀ {E PK : Type} (ent : Entity E PK),
      Nonempty PK ∧
      ent.PK_DEFAULT = ent.PK_DEFAULT ∧
      ∀ e1 e2 : E, (fun _ : E => ent.PK_DEFAULT) e1 = (fun _ : E => ent.PK_DEFAULT) e2 := by
  intro E PK ent
  exact ⟨⟨ent.PK_DEFAULT⟩, rfl, fun e1 e2 => rfl⟩

/-- Claim C8: all five `Repository` operations are declared `async` in the
source — each returns a future that the caller awaits independently, which
is how the contract expresses suspension on the backing store without
blocking the calling thread — and the contract has exactly these five
operations. -/
theorem repository_ops_all_async :
    getManySig.isAsync = true ∧
    getByPkSig.isAsync = true ∧
    createSig.isAsync = true ∧
    updateSig.isAsync = true ∧
    deleteSig.isAsync = true ∧
    repositoryMethods.length = 5 := by
  decide

/-- Claim C9: over the spec-modelled conforming implementation, once
`delete pk` succeeds, `get_by_pk pk` on the resulting store fails with the
not-found error kind; and when the key is absent from the store, each of
`get_by_pk`, `update` and `delete` fails with the not-found error kind
rather than silently succeeding. -/
theorem delete_then_get_not_found :
    ∀ {PK E I : Type} [DecidableEq PK]
      (store store2 : List (PK × E)) (pk : PK) (input : I) (conv : I → E),
      (delete_model store pk = Except.ok store2 →
        get_by_pk_model store2 pk = Except.error RepoErrorKind.notFound) ∧
      (store.find? (fun p => decide (p.1 = pk)) = none →
        get_by_pk_model store pk = Except.error RepoErrorKind.notFound ∧
        update_model store pk input conv = Except.error RepoErrorKind.notFound ∧
        delete_model store pk = Except.error RepoErrorKind.notFound) := by
  intro PK E I _inst store store2 pk input conv
  constructor
  · intro h
    unfold delete_model at h
    by_cases hfind : (store.find? (fun p => decide (p.1 = pk))).isSome
    · simp only [hfind, if_true, Except.ok.injEq] at h
      have hnone : (store.filter (fun p => decide (p.1 ≠ pk))).find?
          (fun p => decide (p.1 = pk)) = none := by
        rw [List.find?_eq_none]
        intro x hx
        have hmem := List.mem_filter.mp hx
        have hne : x.1 ≠ pk := of_decide_eq_true hmem.2
        simp [hne]
      unfold get_by_pk_model
      rw [← h, hnone]
    · rw [Bool.not_eq_true] at hfind
      rw [hfind] at h
      exact absurd h (by simp)
  · intro h
    refine ⟨?_, ?_, ?_⟩
    · unfold get_by_pk_model
      rw [h]
    · unfold update_model
      rw [h]
      simp
    · unfold delete_model
      rw [h]
      simp

/-- Claim C9, witness: deleting key 1 from the one-entry store over key 1
succeeds with the empty store, on which retrieval of key 1 fails with
not-found; and on a store holding only key 2, retrieval, update and removal
of the absent key 1 each fail with not-found. -/
theorem delete_then_get_not_found_witness :
    (get_by_pk_model ([] : List (Nat × Nat)) 1 = Except.error RepoErrorKind.notFound) ∧
    (get_by_pk_model ([(2, 5)] : List (Nat × Nat)) 1 = Except.error RepoErrorKind.notFound ∧
      update_model ([(2, 5)] : List (Nat × Nat)) 1 (7 : Nat) id = Except.error RepoErrorKind.notFound ∧
      delete_model ([(2, 5)] : List (Nat × Nat)) 1 = Except.error RepoErrorKind.notFound) :=
  ⟨(delete_then_get_not_found ([(1, 0)] : List (Nat × Nat)) [] 1 (7 : Nat) id).1 rfl,
   (delete_then_get_not_found ([(2, 5)] : List (Nat × Nat)) [] 1 (7 : Nat) id).2 rfl⟩

/-- Claim C10: the equality bound on every primary-key type is a full
equivalence relation — reflexive, symmetric and transitive — and therefore a
type carrying only a partial equality, with some value that does not equal
itself as floating-point NaN does not, admits no primary-key bound built on
that comparison. -/
theorem pk_eq_equivalence :
    (∀ (PK : Type) (b : PkBounds PK) (x y z : PK),
      b.beq x x = true ∧
      (b.beq x y = true → b.beq y x = true) ∧
      (b.beq x y = true → b.beq y z = true → b.beq x z = true)) ∧
    (∀ (PK : Type) (f : PK → PK → Bool) (v : PK) (b : PkBounds PK),
      f v v = false → b.beq ≠ f) := by
  constructor
  · intro PK b x y z
    exact ⟨b.beq_refl x, b.beq_symm x y, b.beq_trans x y z⟩
  · intro PK f v b hf heq
    have hrefl := b.beq_refl v
    rw [heq, hf] at hrefl
    exact Bool.false_ne_true hrefl

/-- Claim C10, witness: on `Nat` keys, symmetry applied to reflexivity at the
key 1 yields that 1 equals itself; and no primary-key bound on the
float-shaped type can be built on the IEEE-style comparison, under which
`nan` does not equal itself. -/
theorem pk_eq_equivalence_witness :
    natPkBounds.beq 1 1 = true ∧ floatLikeStructBounds.beq ≠ floatLikeEq :=
  ⟨(pk_eq_equivalence.1 Nat natPkBounds 1 1 1).2.1
      ((pk_eq_equivalence.1 Nat natPkBounds 1 1 1).1),
   pk_eq_equivalence.2 FloatLike floatLikeEq FloatLike.nan floatLikeStructBounds rfl⟩

end RocketData
